import Mathlib

/-!
# OctopuSV — verification of the frozen claims

Shallow embedding of the parts of the OctopuSV code base (structural-variant
correction and merging) that the claims C1–C10 are about, followed by the
theorems settling each claim.

All positions are Python `int`s, embedded as `Int`; counters are `Nat`;
Python `None` is `Option.none`; a Python function that can raise is embedded
as `Except String _`.  Ordered Python dicts are association lists in
insertion order.
-/

set_option maxHeartbeats 1000000

/-! ## String utilities shared by several modules -/

/-- Digits of a numeral, most significant first, to the natural number they
denote (`int("…")` on a run of ASCII digits). -/
def natOfDigits (ds : List Char) : Nat :=
  ds.foldl (fun n c => n * 10 + (c.toNat - '0'.toNat)) 0

/-- `s.split(sep)` for a one-character separator, on character lists
(structural, so that proofs can evaluate it). -/
def splitOnCharList (sep : Char) : List Char → List (List Char)
  | [] => [[]]
  | c :: rest =>
    let r := splitOnCharList sep rest
    if c = sep then [] :: r
    else
      match r with
      | h :: t => (c :: h) :: t
      | [] => [[c]]

/-- `s.split(sep)` for a one-character separator. -/
def strSplitOnChar (sep : Char) (s : String) : List String :=
  (splitOnCharList sep s.toList).map String.mk

/-- Python `str.strip()`. -/
def pyStrip (s : String) : String :=
  String.mk (((s.toList.dropWhile Char.isWhitespace).reverse.dropWhile Char.isWhitespace).reverse)

/-- Python `str.lower()` (ASCII). -/
def strLower (s : String) : String := String.mk (s.toList.map Char.toLower)

/-- Python `str.upper()` (ASCII). -/
def strUpper (s : String) : String := String.mk (s.toList.map Char.toUpper)

/-- One fuel-indexed pass of `str.replace(pat, sub)` (left-to-right,
non-overlapping); the fuel is the list length, enough for any non-empty
pattern. -/
def replaceFuel (pat sub : List Char) : Nat → List Char → List Char
  | 0, cs => cs
  | _ + 1, [] => []
  | n + 1, c :: rest =>
    if pat.isPrefixOf (c :: rest) then sub ++ replaceFuel pat sub n ((c :: rest).drop pat.length)
    else c :: replaceFuel pat sub n rest

/-- Python `str.replace(pat, sub)` for non-empty `pat`. -/
def strReplace (s pat sub : String) : String :=
  String.mk (replaceFuel pat.toList sub.toList s.toList.length s.toList)

/-- `os.path.basename`: the part of the path after the last `/`. -/
def pyBasename (p : String) : String :=
  ((strSplitOnChar '/' p).getLast?).getD p

/-- `os.path.splitext(name)[0]` for a plain file name: cut at the last dot,
unless every character before that dot is itself a dot (Python keeps
`.bashrc`-style names whole). -/
def pySplitextStem (name : String) : String :=
  let cs := name.toList
  match splitIdx cs 0 none with
  | some i => String.mk (cs.take i)
  | none => name
where
  /-- Index of the last `.` that is preceded by some non-dot character. -/
  splitIdx : List Char → Nat → Option Nat → Option Nat
    | [], _, acc => acc
    | c :: rest, i, acc =>
      if c = '.' then
        splitIdx rest (i + 1) (if (name.toList.take i).all (· = '.') then acc else some i)
      else
        splitIdx rest (i + 1) acc

/-- Python's `needle in hay` substring test, on character lists. -/
def listIsInfix (needle : List Char) : List Char → Bool
  | [] => needle.isEmpty
  | c :: rest => needle.isPrefixOf (c :: rest) || listIsInfix needle rest

/-- Python's `needle in hay` substring test on strings. -/
def strContains (hay needle : String) : Bool :=
  listIsInfix needle.toList hay.toList

/-! ## `bnd_merge_logic.parse_bnd_alt`

The function uses `re.search` with the pattern
`([^\x5b\x5d]*)([\x5b\x5d])([^:\x5b\x5d]+):(\d+)([\x5b\x5d])([^\x5b\x5d]*)`.
For this pattern, the leftmost match is found by trying each bracket
character of the string in order as the second group: the first group is
then the maximal bracket-free run directly before it, the third group the
non-empty run of characters other than `:`/brackets directly after it
(which must be terminated by `:`), the fourth a non-empty digit run that
must be terminated by a bracket, the last group the maximal bracket-free
run after that bracket. -/

def isBracketChar (c : Char) : Bool := c == '[' || c == ']'

/-- Try to complete a match whose opening bracket has just been consumed:
parse `chrom ':' digits bracket suffix` from the remaining characters. -/
def bndTailAt (cs : List Char) : Option (String × Nat × Char × String) :=
  let chrom := cs.takeWhile (fun c => !(c == ':' || c == '[' || c == ']'))
  let r1 := cs.drop chrom.length
  if chrom.isEmpty then none
  else
    match r1 with
    | ':' :: r2 =>
      let digits := r2.takeWhile Char.isDigit
      let r3 := r2.drop digits.length
      if digits.isEmpty then none
      else
        match r3 with
        | b2 :: r4 =>
          if isBracketChar b2 then
            some (String.mk chrom, natOfDigits digits, b2, String.mk (r4.takeWhile (fun c => !isBracketChar c)))
          else none
        | [] => none
    | _ => none

/-- Scan for the leftmost match of the bracket-group pattern.  `run` holds
(reversed) the bracket-free characters seen since the last bracket, which
form the first group if the next bracket begins a successful match. -/
def bndSearch (run : List Char) : List Char → Option (String × Char × String × Nat × Char × String)
  | [] => none
  | c :: rest =>
    if isBracketChar c then
      match bndTailAt rest with
      | some (chrom, pos, b2, suf) => some (String.mk run.reverse, c, chrom, pos, b2, suf)
      | none => bndSearch [] rest
    else bndSearch (c :: run) rest

/-- `bnd_merge_logic.parse_bnd_alt`: pattern, target chromosome and target
position of a BND ALT string. -/
def parse_bnd_alt (alt : String) : String × Option String × Option Int :=
  if alt = "" || alt = "." then ("UNKNOWN", none, none)
  else
    match bndSearch [] alt.toList with
    | none => ("UNKNOWN", none, none)
    | some (pre, b1, chrom, pos, b2, suf) =>
      let pat :=
        if pre ≠ "" && suf = "" then
          if b1 = ']' && b2 = ']' then "t]p]"
          else if b1 = '[' && b2 = '[' then "t[p["
          else "MIXED"
        else if suf ≠ "" && pre = "" then
          if b1 = ']' && b2 = ']' then "]p]t"
          else if b1 = '[' && b2 = '[' then "[p[t"
          else "MIXED"
        else "UNKNOWN"
      (pat, some chrom, some (Int.ofNat pos))

/-! ## `bnd_merge_logic.should_merge_bnd` -/

/-- The fields of an `SVCFEvent` that `should_merge_bnd` reads. -/
structure BndEvent where
  chrom : String
  pos : Int
  alt : String
deriving DecidableEq, Repr

/-- `bnd_merge_logic.should_merge_bnd`.  The Python body computes
`abs(target_pos1 - target_pos2)` without guarding against `None`; when both
records lack a parsed target position this raises `TypeError`, embedded as
`Except.error`. -/
def should_merge_bnd (event1 event2 : BndEvent) (delta : Int) : Except String Bool :=
  let p1 := parse_bnd_alt event1.alt
  let p2 := parse_bnd_alt event2.alt
  if p1.1 ≠ p2.1 then .ok false
  else if event1.chrom ≠ event2.chrom || p1.2.1 ≠ p2.2.1 then .ok false
  else
    match p1.2.2, p2.2.2 with
    | some tp1, some tp2 =>
      .ok (decide ((event1.pos - event2.pos).natAbs ≤ delta ∧ (tp1 - tp2).natAbs ≤ delta))
    | _, _ => .error "TypeError: unsupported operand type(s) for -: NoneType and NoneType"

/-! ## `converter.base` — BND ALT helpers

`converter/base.py` is not under `src/` (only its importers are), so the two
helpers are modelled from the spec. -/

/-- Modelled from the spec: §4.1 — the BND parser "accepts exactly one
`[chrom:pos[` or `]chrom:pos]` group" (the two brackets agree).  Scans for
the first such group; yields (text before, bracket, chrom, pos, text after),
or `none` when "no bracketed group is found". -/
def bndGroupSame (alt : String) : Option (String × Char × String × Nat × String) :=
  match bndSearch [] alt.toList with
  | some (pre, b1, chrom, pos, b2, suf) =>
    if b1 = b2 then some (pre, b1, chrom, pos, suf) else none
  | none => none

/-- Modelled from the spec: `converter.base.get_bnd_pattern` (§4.1) — "the
presence of a sequence token before vs after the bracketed group selects
among the four patterns" `t[p[`, `]p]t`, `t]p]`, `[p[t`; missing sentinel
otherwise. -/
def get_bnd_pattern (alt : String) : Option String :=
  match bndGroupSame alt with
  | some (pre, b, _, _, suf) =>
    if pre ≠ "" && suf = "" then some (if b = '[' then "t[p[" else "t]p]")
    else if suf ≠ "" && pre = "" then some (if b = ']' then "]p]t" else "[p[t")
    else none
  | none => none

/-- Modelled from the spec: `converter.base.get_alt_chrom_pos` (§4.1) —
mate chromosome and mate position of the bracketed group, as a pair whose
components are the missing sentinel when no group is found (its callers
unpack the result into two variables and compare each against other
values, so the sentinel is a pair of `None`s). -/
def get_alt_chrom_pos (alt : String) : Option String × Option Int :=
  match bndGroupSame alt with
  | some (_, _, chrom, pos, _) => (some chrom, some (Int.ofNat pos))
  | none => (none, none)

/-! ## Record model for the correction converters -/

/-- Python stores both strings and ints in the `info` dict of an event. -/
inductive InfoVal where
  | str (s : String)
  | int (n : Int)
deriving DecidableEq, Repr

/-- The fields of an `SVEvent` that the BND pair converters read or write. -/
structure SVEvent where
  chrom : String
  pos : Int
  id : String
  alt : String
  info : List (String × InfoVal)
deriving DecidableEq, Repr

/-- Lookup in the ordered `info` dict. -/
def infoGet (info : List (String × InfoVal)) (k : String) : Option InfoVal :=
  (info.find? (fun p => p.1 == k)).map (fun p => p.2)

/-- `info[k] = v` on an ordered Python dict: overwrite in place if the key
exists, else append. -/
def infoSet (info : List (String × InfoVal)) (k : String) (v : InfoVal) : List (String × InfoVal) :=
  if info.any (fun p => p.1 == k) then
    info.map (fun p => if p.1 == k then (k, v) else p)
  else info ++ [(k, v)]

/-- Modelled from the spec: `SVEvent.is_BND()` (the record model of §3/§4.3,
not under `src/`) — the record's derived `svtype` is `BND`. -/
def SVEvent.is_BND (e : SVEvent) : Bool :=
  infoGet e.info "SVTYPE" == some (.str "BND")

/-! ## `converter.bnd2del.BNDPairToDELConverter` -/

/-- Leftmost digit run immediately followed by `:`
(`re.search(r'(\d+):', event_id)`). -/
def findDigitRunColon : List Char → Option (List Char)
  | [] => none
  | c :: rest =>
    let run := (c :: rest).takeWhile Char.isDigit
    if !run.isEmpty && ((c :: rest).drop run.length).head? == some ':' then some run
    else findDigitRunColon rest

/-- `BNDPairToDELConverter._extract_base_id`. -/
def _extract_base_id (eventId : String) : String :=
  match findDigitRunColon eventId.toList with
  | some run => String.mk run
  | none => eventId

/-- `BNDPairToDELConverter._create_del_event`: deep-copy the base event and
rewrite it as a DEL.  Note the lowercase-o `octopusV` method tag, unlike the
sibling converters. -/
def _create_del_event (base_event : SVEvent) (start_pos end_pos : Int) : SVEvent :=
  { base_event with
    pos := start_pos
    alt := "<DEL>"
    info := infoSet (infoSet (infoSet (infoSet (infoSet base_event.info
      "SVTYPE" (.str "DEL"))
      "END" (.int end_pos))
      "SVLEN" (.int (Int.ofNat (end_pos - start_pos).natAbs)))
      "CHR2" (.str base_event.chrom))
      "SVMETHOD" (.str "octopusV") }

/-- `BNDPairToDELConverter._check_and_convert_del_pair`.  The Python body
wraps everything in `try`; a `None` from `get_alt_chrom_pos` can only reach
an arithmetic comparison after the mutual-reference check has already
ensured both positions parsed, so no exception escapes. -/
def _check_and_convert_del_pair (event1 event2 : SVEvent) : Option SVEvent :=
  if !(event1.is_BND && event2.is_BND) then none
  else if event1.chrom ≠ event2.chrom then none
  else
    let pattern1 := get_bnd_pattern event1.alt
    let pattern2 := get_bnd_pattern event2.alt
    let (chrom_alt1, pos_alt1) := get_alt_chrom_pos event1.alt
    let (chrom_alt2, pos_alt2) := get_alt_chrom_pos event2.alt
    if !(chrom_alt1 == some event1.chrom && chrom_alt2 == some event2.chrom &&
         pos_alt2 == some event1.pos && pos_alt1 == some event2.pos) then none
    else if pattern1 == some "t[p[" && pattern2 == some "]p]t" then
      match pos_alt1 with
      | some q1 =>
        if q1 > event1.pos then
          some (_create_del_event (if event1.pos < event2.pos then event1 else event2)
            (min event1.pos event2.pos) (max event1.pos event2.pos))
        else none
      | none => none
    else if pattern1 == some "]p]t" && pattern2 == some "t[p[" then
      match pos_alt2 with
      | some q2 =>
        if q2 > event2.pos then
          some (_create_del_event (if event1.pos < event2.pos then event1 else event2)
            (min event1.pos event2.pos) (max event1.pos event2.pos))
        else none
      | none => none
    else none

/-- Insertion into the `event_dict` of `find_and_convert_pairs`: ordered
dict from base id to the events carrying it, in input order. -/
def groupInsert (groups : List (String × List SVEvent)) (k : String) (e : SVEvent) :
    List (String × List SVEvent) :=
  if groups.any (fun g => g.1 == k) then
    groups.map (fun g => if g.1 == k then (g.1, g.2 ++ [e]) else g)
  else groups ++ [(k, [e])]

/-- The grouping pass of `BNDPairToDELConverter.find_and_convert_pairs`. -/
def groupByBaseId (events : List SVEvent) : List (String × List SVEvent) :=
  events.foldl (fun acc e => groupInsert acc (_extract_base_id e.id) e) []

/-- `BNDPairToDELConverter.find_and_convert_pairs`: only groups of exactly
two events sharing a base id are tested as DEL pairs; everything else goes
to `remaining_events`.  (The `processed_ids` guard in the source can never
fire because dict keys are unique; it is omitted.)  Returns
`(remaining_events, converted_del_events)`. -/
def find_and_convert_pairs_del (events : List SVEvent) : List SVEvent × List SVEvent :=
  (groupByBaseId events).foldl
    (fun acc g =>
      match g.2 with
      | [e1, e2] =>
        match _check_and_convert_del_pair e1 e2 with
        | some d => (acc.1, acc.2 ++ [d])
        | none => (acc.1 ++ g.2, acc.2)
      | _ => (acc.1 ++ g.2, acc.2))
    ([], [])

/-! ## `converter.bnd2dup_pair.BNDPairToDUPConverter` -/

/-- `BNDPairToDUPConverter._create_dup_event`. -/
def _create_dup_event (base_event : SVEvent) (start_pos end_pos : Int) : SVEvent :=
  { base_event with
    pos := start_pos
    alt := "<DUP>"
    info := infoSet (infoSet (infoSet (infoSet (infoSet base_event.info
      "SVTYPE" (.str "DUP"))
      "END" (.int end_pos))
      "SVLEN" (.int (Int.ofNat (end_pos - start_pos).natAbs)))
      "CHR2" (.str base_event.chrom))
      "SVMETHOD" (.str "OctopuSV") }

/-- `BNDPairToDUPConverter._check_and_convert_dup_pair`: as the DEL check,
but the `t[p[` member must reference a position smaller than its own. -/
def _check_and_convert_dup_pair (event1 event2 : SVEvent) : Option SVEvent :=
  if !(event1.is_BND && event2.is_BND) then none
  else if event1.chrom ≠ event2.chrom then none
  else
    let pattern1 := get_bnd_pattern event1.alt
    let pattern2 := get_bnd_pattern event2.alt
    let (chrom_alt1, pos_alt1) := get_alt_chrom_pos event1.alt
    let (chrom_alt2, pos_alt2) := get_alt_chrom_pos event2.alt
    if !(chrom_alt1 == some event1.chrom && chrom_alt2 == some event2.chrom &&
         pos_alt2 == some event1.pos && pos_alt1 == some event2.pos) then none
    else if pattern1 == some "t[p[" && pattern2 == some "]p]t" then
      match pos_alt1 with
      | some q1 =>
        if q1 < event1.pos then
          some (_create_dup_event (if event1.pos < event2.pos then event1 else event2)
            (min event1.pos event2.pos) (max event1.pos event2.pos))
        else none
      | none => none
    else if pattern1 == some "]p]t" && pattern2 == some "t[p[" then
      match pos_alt2 with
      | some q2 =>
        if q2 < event2.pos then
          some (_create_dup_event (if event1.pos < event2.pos then event1 else event2)
            (min event1.pos event2.pos) (max event1.pos event2.pos))
        else none
      | none => none
    else none

/-- `enumerate(events)` with absolute indices standing in for Python's
object identities in `processed_events`. -/
def enumFrom (n : Nat) : List SVEvent → List (Nat × SVEvent)
  | [] => []
  | e :: es => (n, e) :: enumFrom (n + 1) es

/-- Inner loop of `BNDPairToDUPConverter.find_and_convert_pairs`: first
unprocessed later event that forms a DUP pair with `e1` (the `break`). -/
def findDupInner (e1 : SVEvent) (later : List (Nat × SVEvent)) (processed : List Nat) :
    Option (Nat × SVEvent) :=
  match later with
  | [] => none
  | (j, e2) :: rest =>
    if processed.contains j then findDupInner e1 rest processed
    else
      match _check_and_convert_dup_pair e1 e2 with
      | some d => some (j, d)
      | none => findDupInner e1 rest processed

/-- Outer loop of `BNDPairToDUPConverter.find_and_convert_pairs`. -/
def findDupOuter : List (Nat × SVEvent) → List Nat → List SVEvent → List Nat × List SVEvent
  | [], processed, converted => (processed, converted)
  | (i, e1) :: rest, processed, converted =>
    if processed.contains i then findDupOuter rest processed converted
    else
      match findDupInner e1 rest processed with
      | some (j, d) => findDupOuter rest (processed ++ [i, j]) (converted ++ [d])
      | none => findDupOuter rest processed converted

/-- `BNDPairToDUPConverter.find_and_convert_pairs`: all-pairs nested scan;
returns `(remaining_events, converted_dup_events)`. -/
def find_and_convert_pairs_dup (events : List SVEvent) : List SVEvent × List SVEvent :=
  let scanned := findDupOuter (enumFrom 0 events) [] []
  (((enumFrom 0 events).filter (fun p => !scanned.1.contains p.1)).map (fun p => p.2), scanned.2)

/-! ## `converter.bnd2inv_pair.BNDPairToINVConverter` (creation only) -/

/-- `BNDPairToINVConverter._create_inv_event`. -/
def _create_inv_event (base_event : SVEvent) (start_pos end_pos : Int) : SVEvent :=
  { base_event with
    pos := start_pos
    alt := "<INV>"
    info := infoSet (infoSet (infoSet (infoSet (infoSet base_event.info
      "SVTYPE" (.str "INV"))
      "END" (.int end_pos))
      "SVLEN" (.int (Int.ofNat (end_pos - start_pos).natAbs)))
      "CHR2" (.str base_event.chrom))
      "SVMETHOD" (.str "OctopuSV") }

/-! ## `converter.bnd_keeping.BNDKeepingConverter` -/

/-- `BNDKeepingConverter.update_bnd_info`: normalize the info fields of a
residual BND.  `if chrom_alt and pos_alt` is Python truthiness: both present,
the chromosome non-empty and the position non-zero. -/
def update_bnd_info (event : SVEvent) : SVEvent :=
  let parsed := get_alt_chrom_pos event.alt
  let info1 :=
    match parsed.1, parsed.2 with
    | some c, some p =>
      if c ≠ "" && p ≠ 0 then
        infoSet (infoSet event.info "END" (.int p)) "CHR2" (.str c)
      else
        infoSet (infoSet event.info "END" (.str ".")) "CHR2" (.str ".")
    | _, _ => infoSet (infoSet event.info "END" (.str ".")) "CHR2" (.str ".")
  { event with
    info := infoSet (infoSet (infoSet info1
      "SVTYPE" (.str "BND"))
      "SVLEN" (.str "."))
      "SVMETHOD" (.str "OctopuSV") }

/-! ## Cross-chromosome TRA rewrite (spec-modelled) -/

/-- Modelled from the spec: the cross-chromosome rewriters of §4.6 are not
under `src/`.  "Each `other_single_TRA` → a single TRA record with
`chr2 = mate_chrom`, `end = mate_pos`"; `svlen` is the sentinel `.`;
"`svmethod` is set to `OctopuSV` on every rewrite". -/
def create_tra_event (base_event : SVEvent) (chr2 : String) (end_pos : Int) : SVEvent :=
  { base_event with
    info := infoSet (infoSet (infoSet (infoSet (infoSet base_event.info
      "SVTYPE" (.str "TRA"))
      "END" (.int end_pos))
      "CHR2" (.str chr2))
      "SVLEN" (.str "."))
      "SVMETHOD" (.str "OctopuSV") }

/-! ## `merger.sv_merger` — SOURCES ordering and sample reordering (C2)

A merged sample is the triple `(sample_name, sample_format, sample_data)`
the source code carries (dict-valued payloads are modelled by their string
form, which is what `_reorder_merged_samples` inspects via `str(...)`),
together with a ghost field `origin`: the input file the sample actually
came from.  The code never reads `origin`; it exists only so the claim
"the k-th SOURCES entry names the source file of the k-th sample column"
can be stated. -/

structure MSample where
  name : String
  fmt : String
  data : String
  origin : String
deriving DecidableEq, Repr

/-- `SVMerger._get_ordered_sources_for_event`: walk the input files in
order; for each, append the first of the event's source files with the
same basename. -/
def get_ordered_sources (all_input_files : List String) (source_file : String) : List String :=
  let source_files := (strSplitOnChar ',' source_file).map pyStrip
  all_input_files.filterMap (fun input =>
    source_files.find? (fun src => pyBasename src == pyBasename input))

/-- The `ordered_basenames` of `_reorder_merged_samples`: lower-cased stem
of each ordered source. -/
def orderedBasenames (ordered_sources : List String) : List String :=
  ordered_sources.map (fun src => strLower (pySplitextStem (pyBasename src)))

/-- The matching heuristic of `_reorder_merged_samples`: a source stem
matches a sample when it occurs as a substring of the sample's data string
or of its name (both lower-cased). -/
def sampleMatches (b : String) (s : MSample) : Bool :=
  strContains (strLower s.data) b || strContains (strLower s.name) b

/-- First ordered source stem matching the sample (the inner `break`). -/
def firstMatch (bs : List String) (s : MSample) : Option String :=
  bs.find? (fun b => sampleMatches b s)

/-- `SVMerger._reorder_merged_samples`: bucket each sample under the first
matching source stem, then emit the buckets in ordered-source order and the
unmatched samples at the end. -/
def reorder_merged_samples (samples : List MSample) (ordered_sources : List String) :
    List MSample :=
  let bs := orderedBasenames ordered_sources
  (bs.map (fun b => samples.filter (fun s => firstMatch bs s == some b))).flatten
    ++ samples.filter (fun s => (firstMatch bs s).isNone)

/-- Display name used for a SOURCES entry in caller mode without a name
mapper: `os.path.splitext(os.path.basename(f))[0]`. -/
def display_stem (f : String) : String := pySplitextStem (pyBasename f)

/-- The comma-separated SOURCES entries written for an event, in caller mode
without a name mapper. -/
def sources_entries (ordered_sources : List String) : List String :=
  ordered_sources.map display_stem

/-! ## Cluster store (C3)

`SVMerger.add_and_merge_event` keeps, per `(sv_type, chromosome)`, the list
of group founders (`merged_events`) aligned with the list of groups
(`event_groups`); `BNDMerger.merge_events` keeps groups and tests
`event_group[0]`.  Both are the same loop; a group is embedded as
`(first member, later members)`.  The similarity predicate is a parameter:
`sv_merge_logic.should_merge` is not under `src/`, `BNDMerger` passes
`should_merge_bnd`. -/

/-- One incoming event: scan groups in insertion order, test the predicate
against the group's first member only, append on the first hit, otherwise
found a new group at the end. -/
def addToGroups {α : Type} (pred : α → α → Bool) :
    List (α × List α) → α → List (α × List α)
  | [], e => [(e, [])]
  | (f, rest) :: gs, e =>
    if pred f e then (f, rest ++ [e]) :: gs
    else (f, rest) :: addToGroups pred gs e

/-- The clustering loop of `BNDMerger.merge_events` /
`SVMerger.add_and_merge_event` over a category's event list. -/
def merge_event_groups {α : Type} (pred : α → α → Bool) (events : List α) :
    List (α × List α) :=
  events.foldl (addToGroups pred) []

/-! ## `SVMerger.evaluate_expression` (C4)

The source builds a boolean context, runs
`re.sub(r"\b" + re.escape(basename) + r"\b", identifier, expr)` once per
element of `set(self.all_input_files)` — in the set's iteration order, an
implementation artifact passed below as `sub_order` — then rewrites
`AND/OR/NOT` to `and/or/not` and hands the string to Python `eval` with
empty builtins.  A well-formed expression over word tokens, `AND/OR/NOT`
and parentheses is embedded as a `BoolExpr`; since no basename here
contains whitespace or parentheses, a regex match never spans two tokens
and the string passes act token by token.  After substitution a token may
not be a single context identifier (it can be corrupted by another
basename's word-bounded match inside it, or left untouched when the
`\b` anchors never fire); `eval` then raises (`NameError` for an
identifier-shaped name, otherwise `SyntaxError`) and the surrounding
`try/except` re-raises either as `ValueError("Invalid expression")`.  The
embedding collapses every such raise into the `Except.error` case. -/

inductive BoolExpr where
  | var (t : String)
  | enot (a : BoolExpr)
  | eand (a b : BoolExpr)
  | eor (a b : BoolExpr)
deriving DecidableEq, Repr

/-- `re.sub(r"\W|^(?=\d)", "_", name)`: every non-word character becomes
`_`, and a leading digit gets `_` prefixed. -/
def sanitizeIdent (name : String) : String :=
  let repl := String.mk (name.toList.map (fun c => if c.isAlphanum || c == '_' then c else '_'))
  match repl.toList with
  | c :: _ => if c.isDigit then "_" ++ repl else repl
  | [] => repl

/-- `SVMerger.evaluate_expression.make_identifier`. -/
def make_identifier (file_path : String) : String := sanitizeIdent (pyBasename file_path)

/-- `expr.replace("AND", "and").replace("OR", "or").replace("NOT", "not")`,
as it acts on a single token of the expression string (it also rewrites
these letter sequences inside identifiers). -/
def replaceOps (s : String) : String :=
  strReplace (strReplace (strReplace s "AND" "and") "OR" "or") "NOT" "not"

/-- Python's `\w` on the ASCII range (as in `sanitizeIdent`). -/
def isWordChar (c : Char) : Bool := c.isAlphanum || c == '_'

/-- Whether an edge position (string edges count as non-word) is a word
character. -/
def isWordOpt : Option Char → Bool
  | some c => isWordChar c
  | none => false

/-- One left-to-right pass of `re.sub(r"\b" + re.escape(pat) + r"\b", sub, s)`
for non-empty `pat`: an occurrence of `pat` is replaced when a `\b` word
boundary holds before its first character (`prev` is the preceding original
character) and after its last character `lastP` (against the next original
character); the replacement text is not rescanned.  The fuel is the string
length, enough because every step consumes at least one character. -/
def reSubFuel (pat sub : List Char) (lastP : Char) : Nat → Option Char → List Char → List Char
  | 0, _, cs => cs
  | _ + 1, _, [] => []
  | n + 1, prev, c :: rest =>
    if pat.isPrefixOf (c :: rest)
        && (isWordOpt prev != isWordChar c)
        && (isWordChar lastP != isWordOpt (((c :: rest).drop pat.length).head?)) then
      sub ++ reSubFuel pat sub lastP n (some lastP) ((c :: rest).drop pat.length)
    else
      c :: reSubFuel pat sub lastP n (some c) rest

/-- `re.sub(r"\b" + re.escape(pat) + r"\b", sub, s)` for non-empty `pat`
(an empty basename — a path ending in `/` — never occurs here and is
outside the model). -/
def pyReSubWord (s pat sub : String) : String :=
  match pat.toList with
  | [] => s
  | c0 :: crest =>
    String.mk (reSubFuel (c0 :: crest) sub.toList (crest.getLast?.getD c0)
      s.toList.length none s.toList)

/-- The substitution loop of `evaluate_expression` as it acts on one token:
`for source in all_sources: expr = re.sub(\b basename \b, identifier, expr)`,
applied in the iteration order `sub_order` of `set(all_input_files)`. -/
def substituteToken (sub_order : List String) (t : String) : String :=
  sub_order.foldl (fun acc src => pyReSubWord acc (pyBasename src) (make_identifier src)) t

/-- The string passes of `evaluate_expression` on every token: the per-file
word-bounded substitutions in `sub_order`, then the `AND/OR/NOT` string
replacement. -/
def translate_tokens (sub_order : List String) : BoolExpr → BoolExpr
  | .var t => .var (replaceOps (substituteToken sub_order t))
  | .enot a => .enot (translate_tokens sub_order a)
  | .eand a b => .eand (translate_tokens sub_order a) (translate_tokens sub_order b)
  | .eor a b => .eor (translate_tokens sub_order a) (translate_tokens sub_order b)

/-- The `context` dict: identifiers of all input files map to `False`,
then identifiers of the event's sources are set to `True`. -/
def expr_context (all_input_files event_sources : List String) (id : String) : Option Bool :=
  if event_sources.any (fun s => make_identifier s == id) then some true
  else if all_input_files.any (fun f => make_identifier f == id) then some false
  else none

/-- Python `eval` on the rewritten expression: `and`/`or` short-circuit.
A substituted token that is not a single context identifier makes `eval`
raise — `NameError` when the token is an identifier-shaped name,
`SyntaxError` otherwise; both land in the same `except` clause, so the
model collapses them into the error case (rendered as a `NameError`-style
message). -/
def eval_py_expr (ctx : String → Option Bool) : BoolExpr → Except String Bool
  | .var t =>
    match ctx t with
    | some b => .ok b
    | none => .error ("NameError: name " ++ t ++ " is not defined")
  | .enot a =>
    match eval_py_expr ctx a with
    | .ok b => .ok (!b)
    | .error e => .error e
  | .eand a b =>
    match eval_py_expr ctx a with
    | .ok true => eval_py_expr ctx b
    | .ok false => .ok false
    | .error e => .error e
  | .eor a b =>
    match eval_py_expr ctx a with
    | .ok true => .ok true
    | .ok false => eval_py_expr ctx b
    | .error e => .error e

/-- `SVMerger.evaluate_expression`.  `sub_order` is the iteration order of
`set(self.all_input_files)` in the substitution loop — an implementation
artifact (Python string hashing is randomized), so claims about the
function quantify over every enumeration of the input files. -/
def evaluate_expression (all_input_files sub_order : List String) (expr : BoolExpr)
    (event_sources : List String) : Except String Bool :=
  match eval_py_expr (expr_context all_input_files event_sources)
      (translate_tokens sub_order expr) with
  | .ok b => .ok b
  | .error e => .error ("Invalid expression: " ++ e)

/-- The word tokens of an expression. -/
def varsOf : BoolExpr → List String
  | .var t => [t]
  | .enot a => varsOf a
  | .eand a b => varsOf a ++ varsOf b
  | .eor a b => varsOf a ++ varsOf b

/-! ## Output headers (C8) -/

/-- One `##contig=<ID=…,length=…>` line. -/
def contigLine (c : String × String) : String :=
  "##contig=<ID=" ++ c.1 ++ ",length=" ++ c.2 ++ ">"

/-- Header lines written by `SVMerger.write_results` (caller mode, i.e. the
branch without a sample-mode name mapper); `file_date` stands for the
`datetime.now()`-derived string. -/
def caller_header_lines (file_date : String) (contigs : List (String × String)) : List String :=
  ["##fileformat=VCFv4.2", "##fileDate=" ++ file_date, "##source=OctopuSV"]
    ++ contigs.map contigLine
    ++ ["#CHROM\tPOS\tID\tREF\tALT\tQUAL\tFILTER\tINFO\tFORMAT\tSAMPLE"]

/-- Header lines written by `MultiSampleWriter._write_header` (sample mode);
`sample_names` are the name mapper's display names in input-file order. -/
def sample_header_lines (file_date : String) (contigs : List (String × String))
    (sample_names : List String) : List String :=
  ["##fileformat=SVCFv1.0", "##fileDate=" ++ file_date, "##source=octopusV"]
    ++ contigs.map contigLine
    ++ ["#CHROM\tPOS\tID\tREF\tALT\tQUAL\tFILTER\tINFO\tFORMAT\t"
        ++ String.intercalate "\t" sample_names]

/-! ## `filter.quality_filter.QualityFilter` (C9, C10) -/

/-- The fields of an event that the quality filter reads.  `qual` is the
raw QUAL column text; `info` values are strings. -/
structure FEvent where
  qual : String
  filter : String
  info : List (String × String)
  format : String
  sample : String
deriving DecidableEq, Repr

/-- The thresholds of `QualityFilter.__init__`.  QUAL bounds are floats,
embedded as rationals. -/
structure QFilter where
  min_qual : Option ℚ
  max_qual : Option ℚ
  min_support : Option Int
  max_support : Option Int
  min_depth : Option Int
  max_depth : Option Int
  min_gq : Option Int
  min_svlen : Option Int
  max_svlen : Option Int
  filter_pass : Bool
  exclude_nocall : Bool
deriving DecidableEq, Repr

/-- Python `float(s)` on decimal numerals: optional sign, digits, optional
fraction (exponent/`inf`/`nan` forms, which never arise in these fields,
are not modelled and yield `none`). -/
def parsePyFloat (s : String) : Option ℚ :=
  let cs := s.toList
  let sgn : ℚ := if cs.head? == some '-' then -1 else 1
  let cs := if cs.head? == some '-' || cs.head? == some '+' then cs.drop 1 else cs
  let ip := cs.takeWhile Char.isDigit
  let r1 := cs.drop ip.length
  match r1 with
  | [] => if ip.isEmpty then none else some (sgn * (natOfDigits ip : ℚ))
  | '.' :: r2 =>
    let fp := r2.takeWhile Char.isDigit
    let r3 := r2.drop fp.length
    if !r3.isEmpty then none
    else if ip.isEmpty && fp.isEmpty then none
    else some (sgn * ((natOfDigits ip : ℚ) + (natOfDigits fp : ℚ) / ((10 : ℚ) ^ fp.length)))
  | _ => none

/-- Python `int(q)` for a float value: truncation toward zero. -/
def pyTruncToInt (q : ℚ) : Int :=
  if 0 ≤ q.num then Int.ofNat (q.num.toNat / q.den) else -Int.ofNat (q.num.natAbs / q.den)

/-- `QualityFilter._safe_int`: `int(float(value))`, `None` on `.`/empty or
parse failure. -/
def _safe_int (v : String) : Option Int :=
  if v == "." || v == "" then none else (parsePyFloat v).map pyTruncToInt

/-- Lookup in a string-valued info dict. -/
def infoGetS (info : List (String × String)) (k : String) : Option String :=
  (info.find? (fun p => p.1 == k)).map (fun p => p.2)

/-- `QualityFilter._parse_sample_fields`:
`dict(zip(format.split(":"), sample.split(":")))`. -/
def _parse_sample_fields (e : FEvent) : List (String × String) :=
  (strSplitOnChar ':' e.format).zip (strSplitOnChar ':' e.sample)

/-- Lookup in a dict built from a pair list: the last binding wins. -/
def dictGet (d : List (String × String)) (k : String) : Option String :=
  (d.reverse.find? (fun p => p.1 == k)).map (fun p => p.2)

/-- `QualityFilter._get_qual_value`. -/
def _get_qual_value (e : FEvent) : Option ℚ :=
  if e.qual == "." then none else parsePyFloat e.qual

/-- The `for field in […]` loop over info keys: first key present with a
non-`.` value. -/
def pickInfoField (info : List (String × String)) : List String → Option String
  | [] => none
  | f :: fs =>
    match infoGetS info f with
    | some v => if v != "." then some v else pickInfoField info fs
    | none => pickInfoField info fs

/-- The `for field in ["DV", "DR", "AD"]` loop over sample keys of
`_get_support_value`: presence short-circuits; `AD` uses its second
comma-separated part. -/
def supportFromSample (sd : List (String × String)) : Option Int :=
  match dictGet sd "DV" with
  | some v => _safe_int v
  | none =>
    match dictGet sd "DR" with
    | some v => _safe_int v
    | none =>
      match dictGet sd "AD" with
      | some v =>
        match strSplitOnChar ',' v with
        | _ :: altc :: _ => _safe_int altc
        | _ => none
      | none => none

/-- `QualityFilter._get_support_value`. -/
def _get_support_value (e : FEvent) : Option Int :=
  match infoGetS e.info "SUPPORT" with
  | some v =>
    if v != "." then _safe_int v
    else
      match pickInfoField e.info ["SUPPREAD", "RE", "DV"] with
      | some w => _safe_int w
      | none => supportFromSample (_parse_sample_fields e)
  | none =>
    match pickInfoField e.info ["SUPPREAD", "RE", "DV"] with
    | some w => _safe_int w
    | none => supportFromSample (_parse_sample_fields e)

/-- `QualityFilter._get_depth_value`. -/
def _get_depth_value (e : FEvent) : Option Int :=
  let sd := _parse_sample_fields e
  match dictGet sd "DP" with
  | some v => _safe_int v
  | none =>
    match dictGet sd "AD" with
    | some v =>
      match strSplitOnChar ',' v with
      | refc :: altc :: _ =>
        match _safe_int refc, _safe_int altc with
        | some r, some a => some (r + a)
        | _, _ => none
      | _ => none
    | none => none

/-- `QualityFilter._get_gq_value`. -/
def _get_gq_value (e : FEvent) : Option Int :=
  match dictGet (_parse_sample_fields e) "GQ" with
  | some v => _safe_int v
  | none => none

/-- `QualityFilter._get_svlen_value`. -/
def _get_svlen_value (e : FEvent) : Option Int :=
  match infoGetS e.info "SVLEN" with
  | some v =>
    if v != "." then (_safe_int v).map (fun n => Int.ofNat n.natAbs) else none
  | none => none

/-- `QualityFilter._get_gt_value`. -/
def _get_gt_value (e : FEvent) : Option String :=
  dictGet (_parse_sample_fields e) "GT"

/-- `QualityFilter._check_qual_filter`. -/
def _check_qual_filter (f : QFilter) (e : FEvent) : Bool :=
  if f.min_qual.isNone && f.max_qual.isNone then true
  else
    match _get_qual_value e with
    | none => true
    | some q =>
      if (match f.min_qual with | some m => decide (q < m) | none => false) then false
      else if (match f.max_qual with | some m => decide (q > m) | none => false) then false
      else true

/-- `QualityFilter._check_filter_field`. -/
def _check_filter_field (f : QFilter) (e : FEvent) : Bool :=
  if !f.filter_pass then true else strUpper e.filter == "PASS"

/-- `QualityFilter._check_support_filter`. -/
def _check_support_filter (f : QFilter) (e : FEvent) : Bool :=
  if f.min_support.isNone && f.max_support.isNone then true
  else
    match _get_support_value e with
    | none => true
    | some s =>
      if (match f.min_support with | some m => decide (s < m) | none => false) then false
      else if (match f.max_support with | some m => decide (s > m) | none => false) then false
      else true

/-- `QualityFilter._check_depth_filter`. -/
def _check_depth_filter (f : QFilter) (e : FEvent) : Bool :=
  if f.min_depth.isNone && f.max_depth.isNone then true
  else
    match _get_depth_value e with
    | none => true
    | some d =>
      if (match f.min_depth with | some m => decide (d < m) | none => false) then false
      else if (match f.max_depth with | some m => decide (d > m) | none => false) then false
      else true

/-- `QualityFilter._check_gq_filter`. -/
def _check_gq_filter (f : QFilter) (e : FEvent) : Bool :=
  match f.min_gq with
  | none => true
  | some m =>
    match _get_gq_value e with
    | none => true
    | some g => decide (g ≥ m)

/-- `QualityFilter._check_svlen_filter`. -/
def _check_svlen_filter (f : QFilter) (e : FEvent) : Bool :=
  if f.min_svlen.isNone && f.max_svlen.isNone then true
  else
    match _get_svlen_value e with
    | none => true
    | some l =>
      if (match f.min_svlen with | some m => decide (l < m) | none => false) then false
      else if (match f.max_svlen with | some m => decide (l > m) | none => false) then false
      else true

/-- `QualityFilter._check_nocall_filter`. -/
def _check_nocall_filter (f : QFilter) (e : FEvent) : Bool :=
  if !f.exclude_nocall then true
  else
    match _get_gt_value e with
    | none => true
    | some g => !(["./.", ".|.", "."].contains g)

/-- The statistics dict of `QualityFilter.__init__`. -/
structure FilterStats where
  total : Nat
  passed : Nat
  filtered_qual : Nat
  filtered_support : Nat
  filtered_depth : Nat
  filtered_gq : Nat
  filtered_svlen : Nat
  filtered_pass : Nat
  filtered_nocall : Nat
deriving DecidableEq, Repr

/-- All-zero statistics. -/
def initStats : FilterStats := ⟨0, 0, 0, 0, 0, 0, 0, 0, 0⟩

/-- `QualityFilter.filter_event`, with the statistics dict made an explicit
argument and result. -/
def filter_event (f : QFilter) (e : FEvent) (st0 : FilterStats) : FilterStats × Bool :=
  let st := { st0 with total := st0.total + 1 }
  if !_check_qual_filter f e then ({ st with filtered_qual := st.filtered_qual + 1 }, false)
  else if !_check_filter_field f e then ({ st with filtered_pass := st.filtered_pass + 1 }, false)
  else if !_check_support_filter f e then ({ st with filtered_support := st.filtered_support + 1 }, false)
  else if !_check_depth_filter f e then ({ st with filtered_depth := st.filtered_depth + 1 }, false)
  else if !_check_gq_filter f e then ({ st with filtered_gq := st.filtered_gq + 1 }, false)
  else if !_check_svlen_filter f e then ({ st with filtered_svlen := st.filtered_svlen + 1 }, false)
  else if !_check_nocall_filter f e then ({ st with filtered_nocall := st.filtered_nocall + 1 }, false)
  else ({ st with passed := st.passed + 1 }, true)

/-- Sum of the seven `filtered_*` counters. -/
def sumFiltered (st : FilterStats) : Nat :=
  st.filtered_qual + st.filtered_pass + st.filtered_support + st.filtered_depth +
    st.filtered_gq + st.filtered_svlen + st.filtered_nocall

/-- Statistics after a sequence of `filter_event` calls on a fresh filter. -/
def runFilter (f : QFilter) (events : List FEvent) : FilterStats :=
  events.foldl (fun st e => (filter_event f e st).1) initStats

/-- The predicate `BNDMerger.merge_events` applies: `should_merge_bnd` at the
default `delta = 50`, truthiness of the returned value (the three events the
counterexample and witness below use all parse, so no `TypeError` arises). -/
def bndPred50 (x y : BndEvent) : Bool :=
  match should_merge_bnd x y 50 with
  | .ok b => b
  | .error _ => false

/-!
# Theorems
-/

/-! ## Helper lemmas about the ordered info dict -/

theorem infoGet_cons_pos {p : String × InfoVal} {ps : List (String × InfoVal)} {k : String}
    (h : p.1 = k) : infoGet (p :: ps) k = some p.2 := by
  simp [infoGet, List.find?_cons, h]

theorem infoGet_cons_neg {p : String × InfoVal} {ps : List (String × InfoVal)} {k : String}
    (h : ¬p.1 = k) : infoGet (p :: ps) k = infoGet ps k := by
  simp [infoGet, List.find?_cons, h]

theorem infoGet_map_set_self {k : String} {v : InfoVal} :
    ∀ ps : List (String × InfoVal), ps.any (fun q => q.1 == k) = true →
      infoGet (ps.map (fun p => if p.1 == k then (k, v) else p)) k = some v
  | [], h => by simp at h
  | p :: ps, h => by
    by_cases hp : p.1 = k
    · have hbeq : (p.1 == k) = true := by simpa using hp
      rw [List.map_cons, if_pos hbeq]
      exact infoGet_cons_pos rfl
    · have hbeq : ¬((p.1 == k) = true) := by simpa using hp
      have h' : ps.any (fun q => q.1 == k) = true := by
        rw [List.any_cons] at h
        simpa [hp] using h
      rw [List.map_cons, if_neg hbeq, infoGet_cons_neg hp]
      exact infoGet_map_set_self ps h'

theorem infoGet_map_set_ne {k k' : String} {v : InfoVal} (hne : k' ≠ k) :
    ∀ ps : List (String × InfoVal),
      infoGet (ps.map (fun p => if p.1 == k then (k, v) else p)) k' = infoGet ps k'
  | [] => rfl
  | p :: ps => by
    by_cases hp : p.1 = k
    · have hbeq : (p.1 == k) = true := by simpa using hp
      rw [List.map_cons, if_pos hbeq,
        infoGet_cons_neg (show ¬((k : String), v).1 = k' by simpa using Ne.symm hne),
        infoGet_cons_neg (show ¬p.1 = k' from hp ▸ Ne.symm hne), infoGet_map_set_ne hne ps]
    · have hbeq : ¬((p.1 == k) = true) := by simpa using hp
      rw [List.map_cons, if_neg hbeq]
      by_cases hq : p.1 = k'
      · rw [infoGet_cons_pos hq, infoGet_cons_pos hq]
      · rw [infoGet_cons_neg hq, infoGet_cons_neg hq, infoGet_map_set_ne hne ps]

theorem infoGet_append_single_self {k : String} {v : InfoVal}
    (ps : List (String × InfoVal)) (h : ps.any (fun q => q.1 == k) = false) :
    infoGet (ps ++ [(k, v)]) k = some v := by
  have hnone : ps.find? (fun q => q.1 == k) = none := by
    rw [List.find?_eq_none]
    intro x hx
    intro hxk
    have : ps.any (fun q => q.1 == k) = true := List.any_of_mem hx hxk
    rw [h] at this
    exact Bool.noConfusion this
  simp [infoGet, List.find?_append, hnone]

theorem infoGet_append_single_ne {k k' : String} {v : InfoVal} (hne : k' ≠ k)
    (ps : List (String × InfoVal)) :
    infoGet (ps ++ [(k, v)]) k' = infoGet ps k' := by
  have hsingle : [((k : String), v)].find? (fun q => q.1 == k') = none := by
    have hkk : (k == k') = false := by simpa using Ne.symm hne
    simp [List.find?, hkk]
  simp [infoGet, List.find?_append, hsingle, Option.or_none]

theorem infoGet_infoSet_self (info : List (String × InfoVal)) (k : String) (v : InfoVal) :
    infoGet (infoSet info k v) k = some v := by
  unfold infoSet
  cases hany : info.any (fun p => p.1 == k) with
  | true => simp only [if_pos rfl]; exact infoGet_map_set_self info hany
  | false =>
    simp only [Bool.false_eq_true, if_neg Bool.false_ne_true]
    exact infoGet_append_single_self info hany

theorem infoGet_infoSet_ne (info : List (String × InfoVal)) (k k' : String) (v : InfoVal)
    (hne : k' ≠ k) : infoGet (infoSet info k v) k' = infoGet info k' := by
  unfold infoSet
  cases hany : info.any (fun p => p.1 == k) with
  | true => simp only [if_pos rfl]; exact infoGet_map_set_ne hne info
  | false =>
    simp only [Bool.false_eq_true, if_neg Bool.false_ne_true]
    exact infoGet_append_single_ne hne info

/-! ## C7 — symmetry and reflexivity of `should_merge_bnd` -/

theorem should_merge_bnd_symm_aux (e1 e2 : BndEvent) (d : Int) :
    should_merge_bnd e1 e2 d = should_merge_bnd e2 e1 d := by
  unfold should_merge_bnd
  rcases h1 : parse_bnd_alt e1.alt with ⟨p1, c1, q1⟩
  rcases h2 : parse_bnd_alt e2.alt with ⟨p2, c2, q2⟩
  simp only
  by_cases hp : p1 = p2
  · by_cases hc : e1.chrom = e2.chrom
    · by_cases hcc : c1 = c2
      · subst hp; subst hcc
        cases q1 <;> cases q2 <;> simp [hc]
        rename_i x y
        rw [abs_sub_comm e1.pos e2.pos, abs_sub_comm x y]
      · subst hp
        simp [hc, hcc, Ne.symm hcc]
    · simp [hp, hc, Ne.symm hc]
  · simp [hp, Ne.symm hp]

theorem should_merge_bnd_refl_aux (e : BndEvent) (d : Int) (hd : 0 ≤ d) (x : Int)
    (hx : (parse_bnd_alt e.alt).2.2 = some x) : should_merge_bnd e e d = .ok true := by
  unfold should_merge_bnd
  rcases h1 : parse_bnd_alt e.alt with ⟨p1, c1, q1⟩
  rw [h1] at hx
  simp only at hx
  subst hx
  simp
  omega

/-- C7: amended.  `should_merge_bnd` is symmetric for all inputs (including
the raising ones: both orders raise the same `TypeError`), and it returns
`True` on `(a, a)` for every nonnegative `delta` whenever `a`'s ALT string
parses to a target position; when it does not parse (e.g. ALT `.`), the call
raises `TypeError` instead of returning `True` (see the counterexample). -/
theorem C7_bnd_predicate_symm_refl :
    (∀ (e1 e2 : BndEvent) (d : Int), should_merge_bnd e1 e2 d = should_merge_bnd e2 e1 d) ∧
    (∀ (e : BndEvent) (d : Int), 0 ≤ d → ∀ x : Int, (parse_bnd_alt e.alt).2.2 = some x →
      should_merge_bnd e e d = .ok true) :=
  ⟨should_merge_bnd_symm_aux, fun e d hd x hx => should_merge_bnd_refl_aux e d hd x hx⟩

/-- C7 witness: the theorem applied at two concrete records and at one
record whose ALT parses. -/
theorem C7_bnd_predicate_symm_refl_witness :
    should_merge_bnd ⟨"chr1", 100, "N[chr1:500["⟩ ⟨"chr2", 77, "]chr5:9]A"⟩ 50
      = should_merge_bnd ⟨"chr2", 77, "]chr5:9]A"⟩ ⟨"chr1", 100, "N[chr1:500["⟩ 50 ∧
    should_merge_bnd ⟨"chr1", 100, "N[chr1:500["⟩ ⟨"chr1", 100, "N[chr1:500["⟩ 50 = .ok true :=
  ⟨C7_bnd_predicate_symm_refl.1 ⟨"chr1", 100, "N[chr1:500["⟩ ⟨"chr2", 77, "]chr5:9]A"⟩ 50,
    C7_bnd_predicate_symm_refl.2 ⟨"chr1", 100, "N[chr1:500["⟩ 50 (by decide) 500 (by decide)⟩

/-- C7 counterexample: for a BND record whose ALT string is `.`,
`should_merge_bnd(a, a, 50)` does not return `True` — it raises `TypeError`
(`abs(None - None)`), refuting "for every BND record a (whatever its ALT
string), should_merge_bnd(a, a, delta) returns true". -/
theorem C7_bnd_predicate_counterexample :
    should_merge_bnd ⟨"chr1", 100, "."⟩ ⟨"chr1", 100, "."⟩ 50 ≠ Except.ok true ∧
    should_merge_bnd ⟨"chr1", 100, "."⟩ ⟨"chr1", 100, "."⟩ 50
      = Except.error "TypeError: unsupported operand type(s) for -: NoneType and NoneType" := by
  refine ⟨fun h => ?_, rfl⟩
  rw [show should_merge_bnd ⟨"chr1", 100, "."⟩ ⟨"chr1", 100, "."⟩ 50
      = Except.error "TypeError: unsupported operand type(s) for -: NoneType and NoneType" from rfl] at h
  exact Except.noConfusion h

/-! ## C8 — merge output headers -/

/-- C8: amended.  In caller mode `write_results` emits
`##fileformat=VCFv4.2`, the dated `##fileDate`, `##source=OctopuSV`, one
contig line per accumulated contig, then the column header row; in sample
mode `MultiSampleWriter._write_header` instead begins with
`##fileformat=SVCFv1.0` and `##source=octopusV` (same dated `##fileDate`,
contig lines and column header layout, with per-sample display names). -/
theorem C8_merge_header_lines (file_date : String) (contigs : List (String × String))
    (sample_names : List String) :
    (caller_header_lines file_date contigs).take 3
        = ["##fileformat=VCFv4.2", "##fileDate=" ++ file_date, "##source=OctopuSV"] ∧
    (caller_header_lines file_date contigs).drop 3
        = contigs.map contigLine
          ++ ["#CHROM\tPOS\tID\tREF\tALT\tQUAL\tFILTER\tINFO\tFORMAT\tSAMPLE"] ∧
    (sample_header_lines file_date contigs sample_names).take 3
        = ["##fileformat=SVCFv1.0", "##fileDate=" ++ file_date, "##source=octopusV"] ∧
    (sample_header_lines file_date contigs sample_names).drop 3
        = contigs.map contigLine
          ++ ["#CHROM\tPOS\tID\tREF\tALT\tQUAL\tFILTER\tINFO\tFORMAT\t"
              ++ String.intercalate "\t" sample_names] := by
  refine ⟨rfl, ?_, rfl, ?_⟩ <;> simp [caller_header_lines, sample_header_lines]

/-- C8 counterexample: a sample-mode run does not begin with
`##fileformat=VCFv4.2` / `##source=OctopuSV`; it writes
`##fileformat=SVCFv1.0` and `##source=octopusV`. -/
theorem C8_merge_header_counterexample :
    (sample_header_lines "2024-01-01" [] ["S1"]).head? = some "##fileformat=SVCFv1.0" ∧
    (sample_header_lines "2024-01-01" [] ["S1"]).head? ≠ some "##fileformat=VCFv4.2" ∧
    (sample_header_lines "2024-01-01" [] ["S1"])[2]? = some "##source=octopusV" ∧
    (sample_header_lines "2024-01-01" [] ["S1"])[2]? ≠ some "##source=OctopuSV" := by
  refine ⟨rfl, ?_, rfl, ?_⟩ <;> decide

/-! ## C3 — chaining-free clustering -/

/-- C3: amended.  Each incoming record is tested only against the first
member of each existing group in insertion order, joins the first group
whose first member matches, and otherwise founds a new group.  Hence for
records arriving A, B, C: if the predicate accepts (A, B) but rejects
(A, C), two groups result — C does not chain into A's group even if it
matches B; if it accepts (A, B) and (A, C), the three records form a single
group [A, B, C] (the scenario of the original claim yields one group, not
two — see the counterexample). -/
theorem C3_clustering_first_member {α : Type} (pred : α → α → Bool) (a b c : α)
    (hab : pred a b = true) :
    (pred a c = false → merge_event_groups pred [a, b, c] = [(a, [b]), (c, [])]) ∧
    (pred a c = true → merge_event_groups pred [a, b, c] = [(a, [b, c])]) := by
  constructor <;> intro h <;>
    simp [merge_event_groups, addToGroups, hab, h]

/-- C3 witness: the theorem applied to `should_merge_bnd` at delta 50 and
three concrete events A(pos 100), B(pos 150), C(pos 250): A matches B but
not C, so two groups form. -/
theorem C3_clustering_first_member_witness :
    merge_event_groups bndPred50
      [⟨"chr1", 100, "N[chr1:500["⟩, ⟨"chr1", 150, "N[chr1:500["⟩, ⟨"chr1", 250, "N[chr1:500["⟩]
      = [(⟨"chr1", 100, "N[chr1:500["⟩, [⟨"chr1", 150, "N[chr1:500["⟩]),
         (⟨"chr1", 250, "N[chr1:500["⟩, [])] :=
  (C3_clustering_first_member bndPred50 ⟨"chr1", 100, "N[chr1:500["⟩ ⟨"chr1", 150, "N[chr1:500["⟩
    ⟨"chr1", 250, "N[chr1:500["⟩ (by decide)).1 (by decide)

/-- C3 counterexample: A(pos 100), B(pos 150), C(pos 50) under
`should_merge_bnd` with delta 50: the predicate accepts (A, B) and (A, C)
but rejects (B, C), and the store produces ONE group [A, B, C] — not the
two groups the claim asserts — because C is tested against the group's
first member A only. -/
theorem C3_clustering_counterexample :
    bndPred50 ⟨"chr1", 100, "N[chr1:500["⟩ ⟨"chr1", 150, "N[chr1:500["⟩ = true ∧
    bndPred50 ⟨"chr1", 100, "N[chr1:500["⟩ ⟨"chr1", 50, "N[chr1:500["⟩ = true ∧
    bndPred50 ⟨"chr1", 150, "N[chr1:500["⟩ ⟨"chr1", 50, "N[chr1:500["⟩ = false ∧
    (merge_event_groups bndPred50
      [⟨"chr1", 100, "N[chr1:500["⟩, ⟨"chr1", 150, "N[chr1:500["⟩, ⟨"chr1", 50, "N[chr1:500["⟩]).length
      = 1 ∧
    (merge_event_groups bndPred50
      [⟨"chr1", 100, "N[chr1:500["⟩, ⟨"chr1", 150, "N[chr1:500["⟩, ⟨"chr1", 50, "N[chr1:500["⟩]).length
      ≠ 2 := by
  refine ⟨rfl, rfl, rfl, rfl, by decide⟩

/-! ## C5 — SVMETHOD tags written by the rewrites -/

/-- C5: the DUP and INV pair rewrites, the residual-BND normalization and
the (spec-modelled) TRA rewrite all set `SVMETHOD` to exactly `OctopuSV`,
but the DEL pair rewrite sets it to `octopusV` (lowercase o) — evaluated
here at the failing input, the DEL formed from `N[chr1:500[` at pos 200. -/
theorem C5_svmethod_values :
    infoGet (_create_del_event ⟨"chr1", 200, "123:1", "N[chr1:500[", [("SVTYPE", .str "BND")]⟩
        200 500).info "SVMETHOD" = some (.str "octopusV") ∧
    "octopusV" ≠ "OctopuSV" ∧
    (∀ (base : SVEvent) (lo hi : Int),
      infoGet (_create_dup_event base lo hi).info "SVMETHOD" = some (.str "OctopuSV") ∧
      infoGet (_create_inv_event base lo hi).info "SVMETHOD" = some (.str "OctopuSV")) ∧
    (∀ e : SVEvent, infoGet (update_bnd_info e).info "SVMETHOD" = some (.str "OctopuSV")) ∧
    (∀ (base : SVEvent) (chr2 : String) (ep : Int),
      infoGet (create_tra_event base chr2 ep).info "SVMETHOD" = some (.str "OctopuSV")) := by
  refine ⟨rfl, by decide, fun base lo hi => ⟨?_, ?_⟩, fun e => ?_, fun base chr2 ep => ?_⟩
  · exact infoGet_infoSet_self _ _ _
  · exact infoGet_infoSet_self _ _ _
  · exact infoGet_infoSet_self _ _ _
  · exact infoGet_infoSet_self _ _ _

/-! ## C1, C6 — same-chromosome BND pair rewrites -/

theorem create_dup_event_fields (base : SVEvent) (lo hi : Int) (hle : lo ≤ hi) :
    (_create_dup_event base lo hi).pos = lo ∧
    (_create_dup_event base lo hi).id = base.id ∧
    (_create_dup_event base lo hi).alt = "<DUP>" ∧
    infoGet (_create_dup_event base lo hi).info "SVTYPE" = some (.str "DUP") ∧
    infoGet (_create_dup_event base lo hi).info "END" = some (.int hi) ∧
    infoGet (_create_dup_event base lo hi).info "SVLEN" = some (.int (hi - lo)) ∧
    infoGet (_create_dup_event base lo hi).info "CHR2" = some (.str base.chrom) := by
  have habs : Int.ofNat (hi - lo).natAbs = hi - lo := by
    rw [Int.ofNat_eq_natCast]
    omega
  unfold _create_dup_event
  refine ⟨rfl, rfl, rfl, ?_, ?_, ?_, ?_⟩
  · rw [infoGet_infoSet_ne _ _ _ _ (by decide), infoGet_infoSet_ne _ _ _ _ (by decide),
      infoGet_infoSet_ne _ _ _ _ (by decide), infoGet_infoSet_ne _ _ _ _ (by decide),
      infoGet_infoSet_self]
  · rw [infoGet_infoSet_ne _ _ _ _ (by decide), infoGet_infoSet_ne _ _ _ _ (by decide),
      infoGet_infoSet_ne _ _ _ _ (by decide), infoGet_infoSet_self]
  · rw [infoGet_infoSet_ne _ _ _ _ (by decide), infoGet_infoSet_ne _ _ _ _ (by decide),
      infoGet_infoSet_self, habs]
  · rw [infoGet_infoSet_ne _ _ _ _ (by decide), infoGet_infoSet_self]

theorem create_del_event_fields (base : SVEvent) (lo hi : Int) (hle : lo ≤ hi) :
    (_create_del_event base lo hi).pos = lo ∧
    (_create_del_event base lo hi).id = base.id ∧
    (_create_del_event base lo hi).alt = "<DEL>" ∧
    infoGet (_create_del_event base lo hi).info "SVTYPE" = some (.str "DEL") ∧
    infoGet (_create_del_event base lo hi).info "END" = some (.int hi) ∧
    infoGet (_create_del_event base lo hi).info "SVLEN" = some (.int (hi - lo)) ∧
    infoGet (_create_del_event base lo hi).info "CHR2" = some (.str base.chrom) := by
  have habs : Int.ofNat (hi - lo).natAbs = hi - lo := by
    rw [Int.ofNat_eq_natCast]
    omega
  unfold _create_del_event
  refine ⟨rfl, rfl, rfl, ?_, ?_, ?_, ?_⟩
  · rw [infoGet_infoSet_ne _ _ _ _ (by decide), infoGet_infoSet_ne _ _ _ _ (by decide),
      infoGet_infoSet_ne _ _ _ _ (by decide), infoGet_infoSet_ne _ _ _ _ (by decide),
      infoGet_infoSet_self]
  · rw [infoGet_infoSet_ne _ _ _ _ (by decide), infoGet_infoSet_ne _ _ _ _ (by decide),
      infoGet_infoSet_ne _ _ _ _ (by decide), infoGet_infoSet_self]
  · rw [infoGet_infoSet_ne _ _ _ _ (by decide), infoGet_infoSet_ne _ _ _ _ (by decide),
      infoGet_infoSet_self, habs]
  · rw [infoGet_infoSet_ne _ _ _ _ (by decide), infoGet_infoSet_self]

theorem check_dup_pair_of_conditions (a b : SVEvent)
    (h1 : a.is_BND = true) (h2 : b.is_BND = true) (hc : a.chrom = b.chrom)
    (hca : (get_alt_chrom_pos a.alt).1 = some a.chrom)
    (hcb : (get_alt_chrom_pos b.alt).1 = some b.chrom)
    (hqa : (get_alt_chrom_pos a.alt).2 = some b.pos)
    (hqb : (get_alt_chrom_pos b.alt).2 = some a.pos)
    (hdir :
      (get_bnd_pattern a.alt = some "t[p[" ∧ get_bnd_pattern b.alt = some "]p]t" ∧ b.pos < a.pos) ∨
      (get_bnd_pattern a.alt = some "]p]t" ∧ get_bnd_pattern b.alt = some "t[p[" ∧ a.pos < b.pos)) :
    _check_and_convert_dup_pair a b
      = some (_create_dup_event (if a.pos < b.pos then a else b)
          (min a.pos b.pos) (max a.pos b.pos)) := by
  unfold _check_and_convert_dup_pair
  rcases hpa : get_alt_chrom_pos a.alt with ⟨ca, qa⟩
  rcases hpb : get_alt_chrom_pos b.alt with ⟨cb, qb⟩
  rw [hpa] at hca hqa
  rw [hpb] at hcb hqb
  simp only at hca hcb hqa hqb
  subst hca; subst hcb; subst hqa; subst hqb
  rcases hdir with ⟨hp1, hp2, hlt⟩ | ⟨hp1, hp2, hlt⟩ <;>
    simp [h1, h2, hc, hp1, hp2, hlt]

theorem check_del_pair_of_conditions (a b : SVEvent)
    (h1 : a.is_BND = true) (h2 : b.is_BND = true) (hc : a.chrom = b.chrom)
    (hca : (get_alt_chrom_pos a.alt).1 = some a.chrom)
    (hcb : (get_alt_chrom_pos b.alt).1 = some b.chrom)
    (hqa : (get_alt_chrom_pos a.alt).2 = some b.pos)
    (hqb : (get_alt_chrom_pos b.alt).2 = some a.pos)
    (hdir :
      (get_bnd_pattern a.alt = some "t[p[" ∧ get_bnd_pattern b.alt = some "]p]t" ∧ a.pos < b.pos) ∨
      (get_bnd_pattern a.alt = some "]p]t" ∧ get_bnd_pattern b.alt = some "t[p[" ∧ b.pos < a.pos)) :
    _check_and_convert_del_pair a b
      = some (_create_del_event (if a.pos < b.pos then a else b)
          (min a.pos b.pos) (max a.pos b.pos)) := by
  unfold _check_and_convert_del_pair
  rcases hpa : get_alt_chrom_pos a.alt with ⟨ca, qa⟩
  rcases hpb : get_alt_chrom_pos b.alt with ⟨cb, qb⟩
  rw [hpa] at hca hqa
  rw [hpb] at hcb hqb
  simp only at hca hcb hqa hqb
  subst hca; subst hcb; subst hqa; subst hqb
  rcases hdir with ⟨hp1, hp2, hlt⟩ | ⟨hp1, hp2, hlt⟩ <;>
    simp [h1, h2, hc, hp1, hp2, hlt]

/-- C6: confirmed.  For a correction input consisting of a same-chromosome
BND pair (a, b) where one member has pattern `t[p[` and the other `]p]t`,
each references the other's position exactly, and the `t[p[` member's
referenced position is smaller than its own, `find_and_convert_pairs` of the
DUP converter consumes both records and emits the single DUP built from the
lower-position member, with `pos = min`, `END = max`,
`SVLEN = end − pos`. -/
theorem C6_dup_pair_conversion (a b : SVEvent)
    (h1 : a.is_BND = true) (h2 : b.is_BND = true) (hc : a.chrom = b.chrom)
    (hca : (get_alt_chrom_pos a.alt).1 = some a.chrom)
    (hcb : (get_alt_chrom_pos b.alt).1 = some b.chrom)
    (hqa : (get_alt_chrom_pos a.alt).2 = some b.pos)
    (hqb : (get_alt_chrom_pos b.alt).2 = some a.pos)
    (hdir :
      (get_bnd_pattern a.alt = some "t[p[" ∧ get_bnd_pattern b.alt = some "]p]t" ∧ b.pos < a.pos) ∨
      (get_bnd_pattern a.alt = some "]p]t" ∧ get_bnd_pattern b.alt = some "t[p[" ∧ a.pos < b.pos)) :
    find_and_convert_pairs_dup [a, b]
      = ([], [_create_dup_event (if a.pos < b.pos then a else b)
          (min a.pos b.pos) (max a.pos b.pos)]) ∧
    (_create_dup_event (if a.pos < b.pos then a else b)
        (min a.pos b.pos) (max a.pos b.pos)).pos = min a.pos b.pos ∧
    infoGet (_create_dup_event (if a.pos < b.pos then a else b)
        (min a.pos b.pos) (max a.pos b.pos)).info "END" = some (.int (max a.pos b.pos)) ∧
    infoGet (_create_dup_event (if a.pos < b.pos then a else b)
        (min a.pos b.pos) (max a.pos b.pos)).info "SVLEN"
      = some (.int (max a.pos b.pos - min a.pos b.pos)) ∧
    infoGet (_create_dup_event (if a.pos < b.pos then a else b)
        (min a.pos b.pos) (max a.pos b.pos)).info "SVTYPE" = some (.str "DUP") ∧
    (_create_dup_event (if a.pos < b.pos then a else b)
        (min a.pos b.pos) (max a.pos b.pos)).id = (if a.pos < b.pos then a else b).id := by
  have hcheck := check_dup_pair_of_conditions a b h1 h2 hc hca hcb hqa hqb hdir
  have hfields := create_dup_event_fields (if a.pos < b.pos then a else b)
    (min a.pos b.pos) (max a.pos b.pos) (min_le_max)
  refine ⟨?_, hfields.1, hfields.2.2.2.2.1, hfields.2.2.2.2.2.1, hfields.2.2.2.1, hfields.2.1⟩
  simp [find_and_convert_pairs_dup, enumFrom, findDupOuter, findDupInner, hcheck]

/-- C6 witness: the spec's concrete example — `C[chr1:10004[` at pos 10574
and `]chr1:10574]C` at pos 10004 form a DUP with pos=10004, end=10574,
svlen=570. -/
theorem C6_dup_pair_conversion_witness :
    find_and_convert_pairs_dup
      [⟨"chr1", 10574, "bnd1", "C[chr1:10004[", [("SVTYPE", .str "BND")]⟩,
       ⟨"chr1", 10004, "bnd2", "]chr1:10574]C", [("SVTYPE", .str "BND")]⟩]
      = ([], [_create_dup_event ⟨"chr1", 10004, "bnd2", "]chr1:10574]C", [("SVTYPE", .str "BND")]⟩
          10004 10574]) ∧
    (_create_dup_event ⟨"chr1", 10004, "bnd2", "]chr1:10574]C", [("SVTYPE", .str "BND")]⟩
        10004 10574).pos = 10004 ∧
    infoGet (_create_dup_event ⟨"chr1", 10004, "bnd2", "]chr1:10574]C", [("SVTYPE", .str "BND")]⟩
        10004 10574).info "END" = some (.int 10574) ∧
    infoGet (_create_dup_event ⟨"chr1", 10004, "bnd2", "]chr1:10574]C", [("SVTYPE", .str "BND")]⟩
        10004 10574).info "SVLEN" = some (.int 570) := by
  have h := C6_dup_pair_conversion
    ⟨"chr1", 10574, "bnd1", "C[chr1:10004[", [("SVTYPE", .str "BND")]⟩
    ⟨"chr1", 10004, "bnd2", "]chr1:10574]C", [("SVTYPE", .str "BND")]⟩
    (by decide) (by decide) (by decide) (by decide) (by decide) (by decide) (by decide)
    (Or.inl ⟨by decide, by decide, by decide⟩)
  exact ⟨h.1, h.2.1, h.2.2.1, h.2.2.2.1⟩

/-- C1: amended.  The DEL converter groups its input by base ID (the first
digit run before a `:` in the record ID, or the whole ID) and tests only
groups of exactly two records.  For a correction input consisting of a
same-chromosome BND pair (a, b) that satisfies the claim's pattern,
mutual-reference and direction conditions AND shares one base ID, it emits
the single DEL built from the lower-position member with `pos = min`,
`END = max`, `SVLEN = end − pos`; a qualifying pair whose members carry
unrelated IDs is left unconverted (see the counterexample). -/
theorem C1_del_pair_conversion (a b : SVEvent)
    (hid : _extract_base_id a.id = _extract_base_id b.id)
    (h1 : a.is_BND = true) (h2 : b.is_BND = true) (hc : a.chrom = b.chrom)
    (hca : (get_alt_chrom_pos a.alt).1 = some a.chrom)
    (hcb : (get_alt_chrom_pos b.alt).1 = some b.chrom)
    (hqa : (get_alt_chrom_pos a.alt).2 = some b.pos)
    (hqb : (get_alt_chrom_pos b.alt).2 = some a.pos)
    (hdir :
      (get_bnd_pattern a.alt = some "t[p[" ∧ get_bnd_pattern b.alt = some "]p]t" ∧ a.pos < b.pos) ∨
      (get_bnd_pattern a.alt = some "]p]t" ∧ get_bnd_pattern b.alt = some "t[p[" ∧ b.pos < a.pos)) :
    find_and_convert_pairs_del [a, b]
      = ([], [_create_del_event (if a.pos < b.pos then a else b)
          (min a.pos b.pos) (max a.pos b.pos)]) ∧
    (_create_del_event (if a.pos < b.pos then a else b)
        (min a.pos b.pos) (max a.pos b.pos)).pos = min a.pos b.pos ∧
    infoGet (_create_del_event (if a.pos < b.pos then a else b)
        (min a.pos b.pos) (max a.pos b.pos)).info "END" = some (.int (max a.pos b.pos)) ∧
    infoGet (_create_del_event (if a.pos < b.pos then a else b)
        (min a.pos b.pos) (max a.pos b.pos)).info "SVLEN"
      = some (.int (max a.pos b.pos - min a.pos b.pos)) ∧
    infoGet (_create_del_event (if a.pos < b.pos then a else b)
        (min a.pos b.pos) (max a.pos b.pos)).info "SVTYPE" = some (.str "DEL") ∧
    (_create_del_event (if a.pos < b.pos then a else b)
        (min a.pos b.pos) (max a.pos b.pos)).id = (if a.pos < b.pos then a else b).id := by
  have hcheck := check_del_pair_of_conditions a b h1 h2 hc hca hcb hqa hqb hdir
  have hfields := create_del_event_fields (if a.pos < b.pos then a else b)
    (min a.pos b.pos) (max a.pos b.pos) (min_le_max)
  refine ⟨?_, hfields.1, hfields.2.2.2.2.1, hfields.2.2.2.2.2.1, hfields.2.2.2.1, hfields.2.1⟩
  simp [find_and_convert_pairs_del, groupByBaseId, groupInsert, hid, hcheck]

/-- C1 witness: the spec's concrete example with shared base ID `123` —
`N[chr1:500[` at pos 200 (id `123:1`) and `]chr1:200]N` at pos 500
(id `123:2`) yield a DEL with pos=200, end=500, svlen=300. -/
theorem C1_del_pair_conversion_witness :
    find_and_convert_pairs_del
      [⟨"chr1", 200, "123:1", "N[chr1:500[", [("SVTYPE", .str "BND")]⟩,
       ⟨"chr1", 500, "123:2", "]chr1:200]N", [("SVTYPE", .str "BND")]⟩]
      = ([], [_create_del_event ⟨"chr1", 200, "123:1", "N[chr1:500[", [("SVTYPE", .str "BND")]⟩
          200 500]) ∧
    (_create_del_event ⟨"chr1", 200, "123:1", "N[chr1:500[", [("SVTYPE", .str "BND")]⟩
        200 500).pos = 200 ∧
    infoGet (_create_del_event ⟨"chr1", 200, "123:1", "N[chr1:500[", [("SVTYPE", .str "BND")]⟩
        200 500).info "END" = some (.int 500) ∧
    infoGet (_create_del_event ⟨"chr1", 200, "123:1", "N[chr1:500[", [("SVTYPE", .str "BND")]⟩
        200 500).info "SVLEN" = some (.int 300) := by
  have h := C1_del_pair_conversion
    ⟨"chr1", 200, "123:1", "N[chr1:500[", [("SVTYPE", .str "BND")]⟩
    ⟨"chr1", 500, "123:2", "]chr1:200]N", [("SVTYPE", .str "BND")]⟩
    (by decide) (by decide) (by decide) (by decide) (by decide) (by decide) (by decide) (by decide)
    (Or.inl ⟨by decide, by decide, by decide⟩)
  exact ⟨h.1, h.2.1, h.2.2.1, h.2.2.2.1⟩

/-- C1 counterexample: the same pair of records satisfying every stated
condition of the claim (patterns `t[p[`/`]p]t`, exact mutual reference,
`mate_pos` of the `t[p[` member greater than its own `pos`), but with ids
`idA`/`idB` that do not share a base ID: the DEL converter emits NO DEL and
returns both records unconverted, refuting "for every pair … the corrector
emits a single DEL record". -/
theorem C1_del_pair_counterexample :
    get_bnd_pattern "N[chr1:500[" = some "t[p[" ∧
    get_bnd_pattern "]chr1:200]N" = some "]p]t" ∧
    get_alt_chrom_pos "N[chr1:500[" = (some "chr1", some 500) ∧
    get_alt_chrom_pos "]chr1:200]N" = (some "chr1", some 200) ∧
    find_and_convert_pairs_del
      [⟨"chr1", 200, "idA", "N[chr1:500[", [("SVTYPE", .str "BND")]⟩,
       ⟨"chr1", 500, "idB", "]chr1:200]N", [("SVTYPE", .str "BND")]⟩]
      = ([⟨"chr1", 200, "idA", "N[chr1:500[", [("SVTYPE", .str "BND")]⟩,
          ⟨"chr1", 500, "idB", "]chr1:200]N", [("SVTYPE", .str "BND")]⟩], []) := by
  exact ⟨rfl, rfl, rfl, rfl, rfl⟩

/-! ## C9, C10 — quality filter -/

theorem filter_event_step (f : QFilter) (e : FEvent) (st : FilterStats) :
    (filter_event f e st).1.total = st.total + 1 ∧
    (filter_event f e st).1.passed + sumFiltered (filter_event f e st).1
      = st.passed + sumFiltered st + 1 ∧
    ((filter_event f e st).1.passed = st.passed ∨
      (filter_event f e st).1.passed = st.passed + 1) ∧
    ((filter_event f e st).1.filtered_qual = st.filtered_qual ∨
      (filter_event f e st).1.filtered_qual = st.filtered_qual + 1) ∧
    ((filter_event f e st).1.filtered_pass = st.filtered_pass ∨
      (filter_event f e st).1.filtered_pass = st.filtered_pass + 1) ∧
    ((filter_event f e st).1.filtered_support = st.filtered_support ∨
      (filter_event f e st).1.filtered_support = st.filtered_support + 1) ∧
    ((filter_event f e st).1.filtered_depth = st.filtered_depth ∨
      (filter_event f e st).1.filtered_depth = st.filtered_depth + 1) ∧
    ((filter_event f e st).1.filtered_gq = st.filtered_gq ∨
      (filter_event f e st).1.filtered_gq = st.filtered_gq + 1) ∧
    ((filter_event f e st).1.filtered_svlen = st.filtered_svlen ∨
      (filter_event f e st).1.filtered_svlen = st.filtered_svlen + 1) ∧
    ((filter_event f e st).1.filtered_nocall = st.filtered_nocall ∨
      (filter_event f e st).1.filtered_nocall = st.filtered_nocall + 1) := by
  unfold filter_event
  split_ifs <;> simp [sumFiltered] <;> omega

theorem filter_fold_invariant (f : QFilter) :
    ∀ (events : List FEvent) (st : FilterStats),
      st.total = st.passed + sumFiltered st →
      (events.foldl (fun s e => (filter_event f e s).1) st).total
        = (events.foldl (fun s e => (filter_event f e s).1) st).passed
          + sumFiltered (events.foldl (fun s e => (filter_event f e s).1) st)
  | [], st, h => h
  | e :: es, st, h => by
    rw [List.foldl_cons]
    refine filter_fold_invariant f es _ ?_
    have h1 := (filter_event_step f e st).1
    have h2 := (filter_event_step f e st).2.1
    omega

/-- C10: after any sequence of `filter_event` calls, `total` equals
`passed` plus the sum of the seven `filtered_*` counters; and each call
increments `total` by one and exactly one of the other eight counters by
one (each other counter grows by zero or one, and their sum by exactly
one). -/
theorem C10_filter_stats_conservation :
    (∀ (f : QFilter) (events : List FEvent),
      (runFilter f events).total
        = (runFilter f events).passed + sumFiltered (runFilter f events)) ∧
    (∀ (f : QFilter) (e : FEvent) (st : FilterStats),
      (filter_event f e st).1.total = st.total + 1 ∧
      (filter_event f e st).1.passed + sumFiltered (filter_event f e st).1
        = st.passed + sumFiltered st + 1 ∧
      ((filter_event f e st).1.passed = st.passed ∨
        (filter_event f e st).1.passed = st.passed + 1) ∧
      ((filter_event f e st).1.filtered_qual = st.filtered_qual ∨
        (filter_event f e st).1.filtered_qual = st.filtered_qual + 1) ∧
      ((filter_event f e st).1.filtered_pass = st.filtered_pass ∨
        (filter_event f e st).1.filtered_pass = st.filtered_pass + 1) ∧
      ((filter_event f e st).1.filtered_support = st.filtered_support ∨
        (filter_event f e st).1.filtered_support = st.filtered_support + 1) ∧
      ((filter_event f e st).1.filtered_depth = st.filtered_depth ∨
        (filter_event f e st).1.filtered_depth = st.filtered_depth + 1) ∧
      ((filter_event f e st).1.filtered_gq = st.filtered_gq ∨
        (filter_event f e st).1.filtered_gq = st.filtered_gq + 1) ∧
      ((filter_event f e st).1.filtered_svlen = st.filtered_svlen ∨
        (filter_event f e st).1.filtered_svlen = st.filtered_svlen + 1) ∧
      ((filter_event f e st).1.filtered_nocall = st.filtered_nocall ∨
        (filter_event f e st).1.filtered_nocall = st.filtered_nocall + 1)) :=
  ⟨fun f events => filter_fold_invariant f events initStats rfl, filter_event_step⟩

/-- C9: for every configured bound (min/max qual, support, depth, gq,
svlen), a record whose corresponding extractor yields the missing value
passes that predicate; and `filter_event` accepts a record all of whose
queried fields are missing (when `filter_pass` is off — the FILTER-column
and no-call checks are not about missing-field extraction, and the no-call
check also passes on a missing GT). -/
theorem C9_missing_fields_pass (f : QFilter) (e : FEvent) (st : FilterStats) :
    (_get_qual_value e = none → _check_qual_filter f e = true) ∧
    (_get_support_value e = none → _check_support_filter f e = true) ∧
    (_get_depth_value e = none → _check_depth_filter f e = true) ∧
    (_get_gq_value e = none → _check_gq_filter f e = true) ∧
    (_get_svlen_value e = none → _check_svlen_filter f e = true) ∧
    (_get_gt_value e = none → _check_nocall_filter f e = true) ∧
    (_get_qual_value e = none → _get_support_value e = none → _get_depth_value e = none →
      _get_gq_value e = none → _get_svlen_value e = none → _get_gt_value e = none →
      f.filter_pass = false → (filter_event f e st).2 = true) := by
  have hq : _get_qual_value e = none → _check_qual_filter f e = true := by
    intro h; simp [_check_qual_filter, h]
  have hs : _get_support_value e = none → _check_support_filter f e = true := by
    intro h; simp [_check_support_filter, h]
  have hd : _get_depth_value e = none → _check_depth_filter f e = true := by
    intro h; simp [_check_depth_filter, h]
  have hg : _get_gq_value e = none → _check_gq_filter f e = true := by
    intro h; cases hm : f.min_gq <;> simp [_check_gq_filter, hm, h]
  have hl : _get_svlen_value e = none → _check_svlen_filter f e = true := by
    intro h; simp [_check_svlen_filter, h]
  have hn : _get_gt_value e = none → _check_nocall_filter f e = true := by
    intro h; cases hx : f.exclude_nocall <;> simp [_check_nocall_filter, hx, h]
  refine ⟨hq, hs, hd, hg, hl, hn, ?_⟩
  intro h1 h2 h3 h4 h5 h6 hfp
  have hff : _check_filter_field f e = true := by simp [_check_filter_field, hfp]
  simp [filter_event, hq h1, hs h2, hd h3, hg h4, hl h5, hn h6, hff]

/-- C9 witness: a filter with every bound configured accepts a record whose
QUAL is `.`, whose INFO is empty and whose FORMAT/SAMPLE carry no keys. -/
theorem C9_missing_fields_pass_witness :
    _check_qual_filter
        ⟨some 30, some 60, some 3, some 50, some 10, some 100, some 20, some 50, some 100000,
          false, false⟩ ⟨".", "PASS", [], "", ""⟩ = true ∧
    _check_support_filter
        ⟨some 30, some 60, some 3, some 50, some 10, some 100, some 20, some 50, some 100000,
          false, false⟩ ⟨".", "PASS", [], "", ""⟩ = true ∧
    (filter_event
        ⟨some 30, some 60, some 3, some 50, some 10, some 100, some 20, some 50, some 100000,
          false, false⟩ ⟨".", "PASS", [], "", ""⟩ initStats).2 = true :=
  ⟨(C9_missing_fields_pass _ _ initStats).1 (by decide),
   (C9_missing_fields_pass _ _ initStats).2.1 (by decide),
   (C9_missing_fields_pass _ _ initStats).2.2.2.2.2.2 (by decide) (by decide) (by decide)
     (by decide) (by decide) (by decide) rfl⟩

/-! ## C4 — selection-expression evaluation -/

theorem substituteToken_fixed (s : String) :
    ∀ order : List String,
      (∀ g ∈ order, pyReSubWord s (pyBasename g) (make_identifier g) = s) →
      substituteToken order s = s
  | [], _ => rfl
  | g :: rest, h => by
    simp only [substituteToken, List.foldl_cons]
    rw [h g (List.mem_cons_self g rest)]
    exact substituteToken_fixed s rest (fun g' hg' => h g' (List.mem_cons_of_mem _ hg'))

theorem substituteToken_hits (t : String)
    (hself : pyReSubWord t t (sanitizeIdent t) = sanitizeIdent t) :
    ∀ order : List String,
      (∀ g ∈ order, pyBasename g = t ∨ pyReSubWord t (pyBasename g) (make_identifier g) = t) →
      (∀ g ∈ order,
        pyReSubWord (sanitizeIdent t) (pyBasename g) (make_identifier g) = sanitizeIdent t) →
      (∃ f ∈ order, pyBasename f = t) →
      substituteToken order t = sanitizeIdent t
  | [], _, _, hsome => absurd hsome (by simp)
  | g :: rest, hothers, hident, hsome => by
    by_cases hg : pyBasename g = t
    · simp only [substituteToken, List.foldl_cons]
      have hstep : pyReSubWord t (pyBasename g) (make_identifier g) = sanitizeIdent t := by
        rw [make_identifier, hg]
        exact hself
      rw [hstep]
      exact substituteToken_fixed (sanitizeIdent t) rest
        (fun g' hg' => hident g' (List.mem_cons_of_mem _ hg'))
    · have hno : pyReSubWord t (pyBasename g) (make_identifier g) = t :=
        (hothers g (List.mem_cons_self g rest)).resolve_left hg
      simp only [substituteToken, List.foldl_cons]
      rw [hno]
      refine substituteToken_hits t hself rest
        (fun g' hg' => hothers g' (List.mem_cons_of_mem _ hg'))
        (fun g' hg' => hident g' (List.mem_cons_of_mem _ hg')) ?_
      obtain ⟨f, hf, hbf⟩ := hsome
      rcases List.mem_cons.mp hf with rfl | hfr
      · exact absurd hbf hg
      · exact ⟨f, hfr, hbf⟩

theorem eval_py_total (inputs sub_order sources : List String)
    (horder : ∀ x, x ∈ sub_order ↔ x ∈ inputs) :
    ∀ expr : BoolExpr,
      (∀ t ∈ varsOf expr, ∃ f ∈ inputs, pyBasename f = t ∧
        pyReSubWord t t (sanitizeIdent t) = sanitizeIdent t ∧
        (∀ g ∈ inputs, pyBasename g = t ∨ pyReSubWord t (pyBasename g) (make_identifier g) = t) ∧
        (∀ g ∈ inputs,
          pyReSubWord (sanitizeIdent t) (pyBasename g) (make_identifier g) = sanitizeIdent t) ∧
        replaceOps (sanitizeIdent t) = sanitizeIdent t) →
      ∃ bv, eval_py_expr (expr_context inputs sources) (translate_tokens sub_order expr) = .ok bv
  | .var t, H => by
    obtain ⟨f, hf, hbase, hself, hothers, hident, hstable⟩ := H t (by simp [varsOf])
    have hsubst : substituteToken sub_order t = sanitizeIdent t :=
      substituteToken_hits t hself sub_order
        (fun g hg => hothers g ((horder g).mp hg))
        (fun g hg => hident g ((horder g).mp hg))
        ⟨f, (horder f).mpr hf, hbase⟩
    have hsan : sanitizeIdent t = make_identifier f := by rw [make_identifier, hbase]
    simp only [translate_tokens, hsubst, hstable, eval_py_expr]
    unfold expr_context
    by_cases hsrc : sources.any (fun s => make_identifier s == sanitizeIdent t) = true
    · exact ⟨true, by simp [hsrc]⟩
    · have hin : inputs.any (fun g => make_identifier g == sanitizeIdent t) = true :=
        List.any_eq_true.mpr ⟨f, hf, by simp [hsan]⟩
      exact ⟨false, by simp [hsrc, hin]⟩
  | .enot a, H => by
    obtain ⟨bv, hbv⟩ := eval_py_total inputs sub_order sources horder a
      (fun t ht => H t (by simp [varsOf, ht]))
    exact ⟨!bv, by simp [translate_tokens, eval_py_expr, hbv]⟩
  | .eand a b, H => by
    obtain ⟨ba, ha⟩ := eval_py_total inputs sub_order sources horder a
      (fun t ht => H t (by simp [varsOf, ht]))
    obtain ⟨bb, hb⟩ := eval_py_total inputs sub_order sources horder b
      (fun t ht => H t (by simp [varsOf, ht]))
    cases ba
    · exact ⟨false, by simp [translate_tokens, eval_py_expr, ha]⟩
    · exact ⟨bb, by simp [translate_tokens, eval_py_expr, ha, hb]⟩
  | .eor a b, H => by
    obtain ⟨ba, ha⟩ := eval_py_total inputs sub_order sources horder a
      (fun t ht => H t (by simp [varsOf, ht]))
    obtain ⟨bb, hb⟩ := eval_py_total inputs sub_order sources horder b
      (fun t ht => H t (by simp [varsOf, ht]))
    cases ba
    · exact ⟨bb, by simp [translate_tokens, eval_py_expr, ha, hb]⟩
    · exact ⟨true, by simp [translate_tokens, eval_py_expr, ha]⟩

/-- C4: amended.  Evaluation of a well-formed AND/OR/NOT expression returns
a boolean provided, whatever order the `set` iteration applies the per-file
substitutions in, every word token is rewritten cleanly to the sanitized
identifier of an input file it is the basename of: the token's own
word-bounded pattern rewrites it wholly to its identifier, no input
basename's pattern alters the token or the identifier, and the identifier
survives the textual `AND/OR/NOT` replacement.  Outside these conditions a
token does NOT evaluate to false — `eval` raises (`NameError` or
`SyntaxError`) and `evaluate_expression` re-raises "Invalid expression";
this happens both for tokens that are no input basename and for input
basenames the word-bounded passes corrupt or never match (see the
counterexample). -/
theorem C4_expression_evaluation (inputs sub_order : List String) (expr : BoolExpr)
    (sources : List String)
    (horder : ∀ x, x ∈ sub_order ↔ x ∈ inputs)
    (H : ∀ t ∈ varsOf expr, ∃ f ∈ inputs, pyBasename f = t ∧
      pyReSubWord t t (sanitizeIdent t) = sanitizeIdent t ∧
      (∀ g ∈ inputs, pyBasename g = t ∨ pyReSubWord t (pyBasename g) (make_identifier g) = t) ∧
      (∀ g ∈ inputs,
        pyReSubWord (sanitizeIdent t) (pyBasename g) (make_identifier g) = sanitizeIdent t) ∧
      replaceOps (sanitizeIdent t) = sanitizeIdent t) :
    ∃ bv, evaluate_expression inputs sub_order expr sources = .ok bv := by
  obtain ⟨bv, hbv⟩ := eval_py_total inputs sub_order sources horder expr H
  exact ⟨bv, by simp [evaluate_expression, hbv]⟩

/-- C4 witness: `a.vcf AND NOT b.vcf` over inputs `a.vcf`, `b.vcf`
evaluates to a boolean (here with the substitutions applied in input
order; the theorem covers every enumeration of the same set). -/
theorem C4_expression_evaluation_witness :
    ∃ bv, evaluate_expression ["a.vcf", "b.vcf"] ["a.vcf", "b.vcf"]
      (.eand (.var "a.vcf") (.enot (.var "b.vcf"))) ["a.vcf"] = .ok bv :=
  C4_expression_evaluation ["a.vcf", "b.vcf"] ["a.vcf", "b.vcf"]
    (.eand (.var "a.vcf") (.enot (.var "b.vcf"))) ["a.vcf"]
    (fun _ => Iff.rfl) (by decide)

/-- C4 counterexample, refuting both halves of the claim.  (i) A token that
is not the basename of any input file does not evaluate to false:
evaluation fails with "Invalid expression" (`eval` raised `NameError`).
(ii) Evaluation is not total even over input-basename tokens: with inputs
`sub.vcf` and `x-sub.vcf` and the set iteration trying `sub.vcf` first,
its word-bounded pattern fires inside the token `x-sub.vcf` (a `\b`
boundary follows the hyphen), corrupting it to `x-sub_vcf`, and evaluation
fails instead of returning a boolean. -/
theorem C4_expression_counterexample :
    evaluate_expression ["caller1.vcf"] ["caller1.vcf"] (.var "unknown") []
      = .error "Invalid expression: NameError: name unknown is not defined" ∧
    (∀ bv : Bool,
      evaluate_expression ["caller1.vcf"] ["caller1.vcf"] (.var "unknown") [] ≠ .ok bv) ∧
    pyBasename "x-sub.vcf" = "x-sub.vcf" ∧
    substituteToken ["sub.vcf", "x-sub.vcf"] "x-sub.vcf" = "x-sub_vcf" ∧
    (∀ bv : Bool,
      evaluate_expression ["sub.vcf", "x-sub.vcf"] ["sub.vcf", "x-sub.vcf"]
        (.var "x-sub.vcf") ["x-sub.vcf"] ≠ .ok bv) := by
  refine ⟨rfl, fun bv h => ?_, rfl, rfl, fun bv h => ?_⟩
  · rw [show evaluate_expression ["caller1.vcf"] ["caller1.vcf"] (.var "unknown") []
        = .error "Invalid expression: NameError: name unknown is not defined" from rfl] at h
    exact Except.noConfusion h
  · rw [show evaluate_expression ["sub.vcf", "x-sub.vcf"] ["sub.vcf", "x-sub.vcf"]
          (.var "x-sub.vcf") ["x-sub.vcf"]
        = .error "Invalid expression: NameError: name x-sub_vcf is not defined" from rfl] at h
    exact Except.noConfusion h

/-! ## C2 — SOURCES / sample-column ordering -/

theorem flatten_map_singleton {α : Type} : ∀ l : List α, (l.map (fun b => [b])).flatten = l
  | [] => rfl
  | a :: t => by simp [flatten_map_singleton t]

/-- C2: amended.  The reorder step recovers the SOURCES/column
correspondence only when the substring heuristic identifies each sample's
own source: if every merged sample's first matching source stem is exactly
the stem of its own origin file, the samples' origin stems are a
permutation of the ordered source stems, and those stems are pairwise
distinct, then the reordered sample columns carry, position by position,
the (lower-cased) stems of the SOURCES entries, which follow input-file
order by construction of `get_ordered_sources`.  Without those conditions
the correspondence can fail (see the counterexample: a sample whose data
contains an earlier source's stem is bucketed under that source). -/
theorem C2_sources_sample_ordering (samples : List MSample) (ordered_sources : List String)
    (H1 : ∀ s ∈ samples, firstMatch (orderedBasenames ordered_sources) s
        = some (strLower (pySplitextStem (pyBasename s.origin))))
    (H2 : (samples.map (fun s => strLower (pySplitextStem (pyBasename s.origin)))).Perm
        (orderedBasenames ordered_sources))
    (H3 : (orderedBasenames ordered_sources).Nodup) :
    (reorder_merged_samples samples ordered_sources).map
        (fun s => strLower (pySplitextStem (pyBasename s.origin)))
      = (sources_entries ordered_sources).map strLower := by
  have hsrc : (sources_entries ordered_sources).map strLower
      = orderedBasenames ordered_sources := by
    simp [sources_entries, orderedBasenames, display_stem, List.map_map]
  rw [hsrc]
  have hunm : samples.filter
      (fun s => (firstMatch (orderedBasenames ordered_sources) s).isNone) = [] := by
    rw [List.filter_eq_nil_iff]
    intro s hs
    simp [H1 s hs]
  have hkey : ∀ b ∈ orderedBasenames ordered_sources,
      (samples.filter
          (fun s => firstMatch (orderedBasenames ordered_sources) s == some b)).map
        (fun s => strLower (pySplitextStem (pyBasename s.origin))) = [b] := by
    intro b hb
    have hfc : samples.filter
          (fun s => firstMatch (orderedBasenames ordered_sources) s == some b)
        = samples.filter
            ((fun x => x == b) ∘ (fun s => strLower (pySplitextStem (pyBasename s.origin)))) :=
      List.filter_congr (fun s hs => by rw [H1 s hs]; simp [Function.comp])
    rw [hfc]
    have hcnt : (samples.map
        (fun s => strLower (pySplitextStem (pyBasename s.origin)))).count b = 1 := by
      rw [H2.count_eq b]
      exact List.count_eq_one_of_mem H3 hb
    calc (samples.filter
            ((fun x => x == b) ∘ (fun s => strLower (pySplitextStem (pyBasename s.origin))))).map
          (fun s => strLower (pySplitextStem (pyBasename s.origin)))
        = (samples.map (fun s => strLower (pySplitextStem (pyBasename s.origin)))).filter
            (fun x => x == b) :=
          (List.filter_map (fun s => strLower (pySplitextStem (pyBasename s.origin)))
            samples).symm
      _ = List.replicate ((samples.map
            (fun s => strLower (pySplitextStem (pyBasename s.origin)))).count b) b :=
          List.filter_beq _ b
      _ = [b] := by rw [hcnt]; rfl
  simp only [reorder_merged_samples]
  rw [hunm, List.append_nil, List.map_flatten, List.map_map]
  have hmaps : (orderedBasenames ordered_sources).map
        ((List.map (fun s => strLower (pySplitextStem (pyBasename s.origin)))) ∘
          (fun b => samples.filter
            (fun s => firstMatch (orderedBasenames ordered_sources) s == some b)))
      = (orderedBasenames ordered_sources).map (fun b => [b]) :=
    List.map_congr_left (fun b hb => hkey b hb)
  rw [hmaps, flatten_map_singleton]

/-- C2 witness: two samples arriving in reverse order, each carrying its
own source stem in its data, are reordered back to input-file order. -/
theorem C2_sources_sample_ordering_witness :
    (reorder_merged_samples
        [⟨"S2", "GT", "0/1:fileb", "fileB.vcf"⟩, ⟨"S1", "GT", "0/0:filea", "x/fileA.vcf"⟩]
        ["x/fileA.vcf", "fileB.vcf"]).map
        (fun s => strLower (pySplitextStem (pyBasename s.origin)))
      = (sources_entries ["x/fileA.vcf", "fileB.vcf"]).map strLower :=
  C2_sources_sample_ordering
    [⟨"S2", "GT", "0/1:fileb", "fileB.vcf"⟩, ⟨"S1", "GT", "0/0:filea", "x/fileA.vcf"⟩]
    ["x/fileA.vcf", "fileB.vcf"] (by decide) (by decide) (by decide)

/-- C2 counterexample: input files `a.vcf`, `b.vcf`; the event's
`SOURCES` entries are `a,b`, but the first sample column is the sample
originating from `b.vcf` — its data string `ab` contains the earlier
source stem `a`, so the heuristic buckets it under `a.vcf` — refuting "the
k-th comma-separated entry of SOURCES names the source file of the k-th
sample column". -/
theorem C2_sources_sample_ordering_counterexample :
    get_ordered_sources ["a.vcf", "b.vcf"] "a.vcf,b.vcf" = ["a.vcf", "b.vcf"] ∧
    sources_entries ["a.vcf", "b.vcf"] = ["a", "b"] ∧
    (reorder_merged_samples
        [⟨"S1", "GT", "ab", "b.vcf"⟩, ⟨"S2", "GT", "a", "a.vcf"⟩]
        ["a.vcf", "b.vcf"]).map MSample.origin = ["b.vcf", "a.vcf"] ∧
    (["b.vcf", "a.vcf"] : List String) ≠ ["a.vcf", "b.vcf"] := by
  exact ⟨rfl, rfl, rfl, by decide⟩
